import Mathlib

/-!
# Verification of the webflow-mcp-server request-handling surface

Shallow embedding of `src/index.ts`: the zod input schema for `get_site`,
the `isWebflowApiError` / `formatDate` utilities, the two tool handlers
(`get_site`, `get_sites`), the static `TOOL_DEFINITIONS` registry, and the
dispatch handler registered for call-tool requests.

JavaScript error values thrown across the remote-call boundary are modelled
by the inductive `JsError`; the remote Webflow client is modelled as an
oracle (`World`) giving the outcome of each remote call, so the handlers
become pure functions of that oracle.  Whether a handler issued its remote
call is recorded explicitly in the returned effect.
-/

/-- A JavaScript `Date` value as the program sees it: only its
`toLocaleString()` rendering is ever consumed. -/
structure DateV where
  localeString : String
deriving DecidableEq

/-- A thrown JavaScript error value.
* `plainError m` — `new Error(m)`: an object with no `code` property;
* `withCode c m` — an error object carrying a `code` property (the shape
  the Webflow API client throws);
* `zodError m` — a `ZodError` raised by `schema.parse`, carrying the
  validator's issue message and no `code` property;
* `typeError` — a `TypeError` raised by the JavaScript runtime itself
  (no `code` property; the engine-specific message is not modelled);
* `nonObject` — a thrown value that is not an object. -/
inductive JsError where
  | plainError (message : String)
  | withCode (code : String) (message : String)
  | zodError (message : String)
  | typeError
  | nonObject
deriving DecidableEq

/-- Embedding of `isWebflowApiError` (index.ts:50-52): `error !== null && typeof error
=== "object" && "code" in error`.  Only error objects carrying a `code`
property pass. -/
def isWebflowApiError : JsError → Bool
  | .withCode _ _ => true
  | _ => false

/-- The value of the `code` property of an error object, when present. -/
def errorCode : JsError → Option String
  | .withCode c _ => some c
  | _ => none

/-- The catch-clause test in `get_site` (index.ts:125):
`isWebflowApiError(error) && error.code === "NOT_FOUND"`. -/
def isNotFoundError (e : JsError) : Bool :=
  isWebflowApiError e && (errorCode e == some "NOT_FOUND")

/-- Embedding of `formatDate` (index.ts:54-57): `if (!date) return "N/A"; return
date.toLocaleString();`.  A `Date` object is never falsy, so the falsy
test is exactly the null/undefined test. -/
def formatDate : Option DateV → String
  | none => "N/A"
  | some d => d.localeString

/-- A Webflow site record, with the fields the program reads.  The three
optional fields may be absent in the upstream response. -/
structure Site where
  id : String
  displayName : String
  shortName : String
  workspaceId : String
  createdOn : Option DateV
  lastPublished : Option DateV
  previewUrl : Option String
deriving DecidableEq

/-- The rendering of `site.previewUrl || "N/A"` (index.ts:114, 164):
JavaScript `||` substitutes the fallback for any falsy value, so both a
missing URL and the empty string render as `"N/A"`. -/
def previewUrlOrNA : Option String → String
  | none => "N/A"
  | some u => if u = "" then "N/A" else u

/-- The `formattedSite` template literal of `get_site` (index.ts:101-114),
with the source file's exact text and indentation. -/
def formatSite (site : Site) : String :=
  "• Site Details:\n            ID: " ++ site.id
    ++ "\n            Display Name: " ++ site.displayName
    ++ "\n            Short Name: " ++ site.shortName
    ++ "\n          \n          - Workspace Information:\n            Workspace ID: "
    ++ site.workspaceId
    ++ "\n          \n          - Dates:\n            Created On: "
    ++ formatDate site.createdOn
    ++ "\n            Last Published: " ++ formatDate site.lastPublished
    ++ "\n          \n          - URLs:\n            Preview URL: "
    ++ previewUrlOrNA site.previewUrl

/-- The per-record template literal mapped over `sites` in `get_sites`
(index.ts:158-165).  The template starts and ends with a newline. -/
def formatSiteListItem (site : Site) : String :=
  "\n• Site: " ++ site.displayName
    ++ "\n  - ID: " ++ site.id
    ++ "\n  - Workspace: " ++ site.workspaceId
    ++ "\n  - Created: " ++ formatDate site.createdOn
    ++ "\n  - Last Published: " ++ formatDate site.lastPublished
    ++ "\n  - Preview URL: " ++ previewUrlOrNA site.previewUrl
    ++ "\n"

/-- JavaScript `Array.prototype.join(sep)` on a list of strings. -/
def joinWith (sep : String) : List String → String
  | [] => ""
  | [x] => x
  | x :: xs => x ++ sep ++ joinWith sep xs

/-- One content block of a tool result: `{ type: "text", text }`. -/
structure ContentItem where
  type : String
  text : String
deriving DecidableEq

/-- A tool result: `{ content: [...] }`. -/
structure ToolRes where
  content : List ContentItem
deriving DecidableEq

/-- What invoking the value found by the dispatch lookup does: return a
tool result, throw an error, or — when the lookup found an inherited
`Object.prototype` member rather than a tool handler — return a plain
JavaScript value that is not a tool result (a primitive string, or an
object without the tool-result shape). -/
inductive HandlerOutcome where
  | success (result : ToolRes)
  | failure (error : JsError)
  | rawString (s : String)
  | rawObject
deriving DecidableEq

/-- An argument value in the untyped arguments bag: a string, or some
non-string JSON value. -/
inductive ArgValue where
  | str (s : String)
  | nonString
deriving DecidableEq

/-- The untyped arguments bag of a call-tool request, restricted to the one
key the schemas mention: a `siteId` field that may be absent. -/
structure RawArgs where
  siteId : Option ArgValue
deriving DecidableEq

/-- Embedding of `schemas.toolInputs.getSite.parse` (index.ts:32-34):
`z.object({ siteId: z.string().min(1, "Site ID is required") })`.
A missing field fails with zod's `Required` issue, a non-string fails with
a type issue, and a string shorter than 1 character fails with the
configured message.  On success the parsed `siteId` string is returned. -/
def parseGetSite (args : RawArgs) : Except JsError String :=
  match args.siteId with
  | none => .error (.zodError "Required")
  | some .nonString => .error (.zodError "Expected string, received other")
  | some (.str s) =>
    if s.length ≥ 1 then .ok s else .error (.zodError "Site ID is required")

/-- The outcome of one remote call: a value, or a thrown error. -/
inductive FetchResult (α : Type) where
  | ok (value : α)
  | err (error : JsError)
deriving DecidableEq

/-- The `sites` field of the `webflow.sites.list()` response: an array of
site records, or some non-array value. -/
inductive SitesField where
  | arr (sites : List Site)
  | notArray
deriving DecidableEq

/-- The remote-call oracle: what `webflow.sites.get(siteId)` and
`webflow.sites.list()` would do if issued.  `getFetch` returning
`.ok none` models a resolved call whose value is falsy. -/
structure World where
  getFetch : String → FetchResult (Option Site)
  listFetch : FetchResult SitesField

/-- A handler invocation's observable effect: its outcome, and whether it
issued its remote call. -/
structure Effect where
  outcome : HandlerOutcome
  remoteCalled : Bool
deriving DecidableEq

/-- The catch block of `get_site` (index.ts:124-137): a caught error with
the provider's not-found code yields a successful "not found" content
item; any other caught error is logged and replaced by the generic
`Error("Failed to fetch site details")`. -/
def getSiteCatch (e : JsError) (siteId : String) : HandlerOutcome :=
  if isNotFoundError e then
    .success ⟨[⟨"text", "Site with ID " ++ siteId ++ " not found."⟩]⟩
  else
    .failure (.plainError "Failed to fetch site details")

/-- Embedding of `toolHandlers.get_site` (index.ts:90-138).  `schemas.toolInputs.getSite
.parse(args)` runs before the `try` block, so its error propagates
unchanged and no remote call is issued.  Inside the `try`, the remote
fetch happens; a falsy resolved value raises `Error("Site not found")`
into the catch block. -/
def get_site (w : World) (args : RawArgs) : Effect :=
  match parseGetSite args with
  | .error e => { outcome := .failure e, remoteCalled := false }
  | .ok siteId =>
    match w.getFetch siteId with
    | .ok (some site) =>
      { outcome := .success ⟨[⟨"text", formatSite site⟩]⟩, remoteCalled := true }
    | .ok none =>
      { outcome := getSiteCatch (.plainError "Site not found") siteId,
        remoteCalled := true }
    | .err e =>
      { outcome := getSiteCatch e siteId, remoteCalled := true }

/-- Embedding of `toolHandlers.get_sites` (index.ts:140-181).  An empty or non-array
`sites` field yields the fixed no-sites message; a non-empty array is
mapped through the per-record template and joined with `"\n"`, prefixed
with the count; any thrown error is logged and replaced by
`Error("Failed to fetch sites list")`. -/
def get_sites (w : World) : Effect :=
  match w.listFetch with
  | .err _ =>
    { outcome := .failure (.plainError "Failed to fetch sites list"),
      remoteCalled := true }
  | .ok .notArray =>
    { outcome := .success ⟨[⟨"text", "No sites found for this account."⟩]⟩,
      remoteCalled := true }
  | .ok (.arr sites) =>
    if sites.isEmpty then
      { outcome := .success ⟨[⟨"text", "No sites found for this account."⟩]⟩,
        remoteCalled := true }
    else
      { outcome := .success ⟨[⟨"text",
          "Found " ++ toString sites.length ++ " sites:\n"
            ++ joinWith "\n" (sites.map formatSiteListItem)⟩]⟩,
        remoteCalled := true }

/-- A JSON-schema property entry of a tool descriptor. -/
structure PropertySchema where
  name : String
  type : String
  description : String
deriving DecidableEq

/-- The `inputSchema` of a tool descriptor. -/
structure InputSchema where
  type : String
  properties : List PropertySchema
  required : List String
deriving DecidableEq

/-- One entry of `TOOL_DEFINITIONS`. -/
structure ToolDefinition where
  name : String
  description : String
  inputSchema : InputSchema
deriving DecidableEq

/-- Embedding of `TOOL_DEFINITIONS` (index.ts:60-86): the static ordered registry. -/
def TOOL_DEFINITIONS : List ToolDefinition :=
  [{ name := "get_site",
     description := "Retrieve detailed information about a specific Webflow site by ID, including workspace, creation date, display name, and publishing details",
     inputSchema :=
       { type := "object",
         properties := [{ name := "siteId", type := "string",
                          description := "The unique identifier of the Webflow site" }],
         required := ["siteId"] } },
   { name := "get_sites",
     description := "Retrieve a list of all Webflow sites accessible to the authenticated user",
     inputSchema := { type := "object", properties := [], required := [] } }]

/-- The list-tools request handler (index.ts:185-188): the closure ignores
the request and any prior call history and returns `TOOL_DEFINITIONS`;
the server holds no mutable state the handler could read. -/
def listToolsHandler (_history : List (String × RawArgs)) : List ToolDefinition :=
  TOOL_DEFINITIONS

/-- The string-keyed member names every plain object literal inherits from
`Object.prototype`, which JavaScript bracket access
`toolHandlers[name]` (index.ts:194) finds when `name` is not an own
key. -/
def objectPrototypeMembers : List String :=
  ["constructor", "hasOwnProperty", "isPrototypeOf", "propertyIsEnumerable",
   "toLocaleString", "toString", "valueOf", "__proto__", "__defineGetter__",
   "__defineSetter__", "__lookupGetter__", "__lookupSetter__"]

/-- What `handler(args)` (index.ts:199) does when the lookup found the
inherited `Object.prototype` member named `m`, per ECMAScript semantics
for a bare strict-mode call (`this` is `undefined`, `args` an object):
`toString` returns the primitive string `"[object Undefined]"`;
`constructor` is the `Object` function and returns an object; the
`__proto__` accessor yields `Object.prototype` itself, a non-function
whose invocation throws a `TypeError`; every other member throws a
`TypeError` while coercing its `undefined` receiver (or, for
`toLocaleString`, while reading `toString` off it). -/
def invokeProtoMember (m : String) : HandlerOutcome :=
  if m = "toString" then .rawString "[object Undefined]"
  else if m = "constructor" then .rawObject
  else .failure .typeError

/-- The observable effect of one call-tool request at the dispatch layer:
its outcome, whether one of the two tool handlers ran, whether an
inherited `Object.prototype` member was invoked in place of a handler,
and whether a remote call was issued. -/
structure DispatchEffect where
  outcome : HandlerOutcome
  handlerInvoked : Bool
  inheritedInvoked : Bool
  remoteCalled : Bool
deriving DecidableEq

/-- The call-tool request handler (index.ts:190-204): `toolHandlers[name]`
finds an own key (`get_site`, `get_sites`) or, failing that, a member
inherited from `Object.prototype`; only when both lookups miss is the
result `undefined`, making `if (!handler)` raise
`Error("Unknown tool: " + name)`.  An own handler's outcome is returned
as is; an inherited member is truthy, so it is invoked in place of a
handler.  The catch clause logs and re-throws the same error value, so
the dispatched outcome equals the invoked function's outcome. -/
def callTool (w : World) (name : String) (args : RawArgs) : DispatchEffect :=
  if name = "get_site" then
    let e := get_site w args
    { outcome := e.outcome, handlerInvoked := true, inheritedInvoked := false,
      remoteCalled := e.remoteCalled }
  else if name = "get_sites" then
    let e := get_sites w
    { outcome := e.outcome, handlerInvoked := true, inheritedInvoked := false,
      remoteCalled := e.remoteCalled }
  else if name ∈ objectPrototypeMembers then
    { outcome := invokeProtoMember name, handlerInvoked := false,
      inheritedInvoked := true, remoteCalled := false }
  else
    { outcome := .failure (.plainError ("Unknown tool: " ++ name)),
      handlerInvoked := false, inheritedInvoked := false, remoteCalled := false }

/-! ## Ordered-occurrence machinery for the formatting claims -/

/-- Test whether `hay` starts with `needle` (on character lists). -/
def startsWithL : List Char → List Char → Bool
  | _, [] => true
  | [], _ :: _ => false
  | c :: t, d :: u => c == d && startsWithL t u

/-- Scan `hay` for the first occurrence of `needle`; return what follows
that occurrence, or `none` when `needle` does not occur. -/
def dropAfterFirst (needle : List Char) : List Char → Option (List Char)
  | [] => if needle.isEmpty then some [] else none
  | c :: t =>
    if startsWithL (c :: t) needle then some (List.drop needle.length (c :: t))
    else dropAfterFirst needle t

/-- Decidable check that the strings `vals` occur in `hay` as disjoint
substrings, in the given order (greedy leftmost scan). -/
def valsInOrder : List Char → List String → Bool
  | _, [] => true
  | hay, v :: vs =>
    match dropAfterFirst v.data hay with
    | none => false
    | some rest => valsInOrder rest vs

/-- The strings `vals` occur in `hay` as disjoint substrings, in order:
the formal reading of "the text lists these values in this fixed order". -/
def EmbedsInOrder (hay : List Char) : List String → Prop
  | [] => True
  | v :: vs => ∃ a b, hay = a ++ v.data ++ b ∧ EmbedsInOrder b vs

theorem startsWithL_append (v r : List Char) : startsWithL (v ++ r) v = true := by
  induction v with
  | nil => cases r <;> rfl
  | cons c t ih => simp [startsWithL, ih]

theorem startsWithL_exists {h n : List Char} (hs : startsWithL h n = true) :
    ∃ r, h = n ++ r := by
  induction n generalizing h with
  | nil => exact ⟨h, rfl⟩
  | cons d u ih =>
    cases h with
    | nil => simp [startsWithL] at hs
    | cons c t =>
      simp only [startsWithL, Bool.and_eq_true, beq_iff_eq] at hs
      obtain ⟨rfl, hs'⟩ := hs
      obtain ⟨r, rfl⟩ := ih hs'
      exact ⟨r, rfl⟩

theorem dropAfterFirst_append (v b : List Char) :
    ∀ a : List Char, ∃ c, dropAfterFirst v (a ++ v ++ b) = some (c ++ b) := by
  intro a
  induction a with
  | nil =>
    refine ⟨[], ?_⟩
    cases hv : v with
    | nil =>
      cases b with
      | nil => rfl
      | cons x t => simp [dropAfterFirst, startsWithL]
    | cons x xs =>
      simp only [List.nil_append]
      rw [show (x :: xs) ++ b = x :: (xs ++ b) from rfl]
      simp only [dropAfterFirst]
      rw [show x :: (xs ++ b) = (x :: xs) ++ b from rfl, startsWithL_append]
      simp [List.drop_left]
  | cons x a' ih =>
    rw [show (x :: a') ++ v ++ b = x :: (a' ++ v ++ b) from rfl]
    simp only [dropAfterFirst]
    by_cases hs : startsWithL (x :: (a' ++ v ++ b)) v = true
    · obtain ⟨r, hr⟩ := startsWithL_exists hs
      rw [hs]
      simp only [if_true]
      have hdrop : List.drop v.length (x :: (a' ++ v ++ b)) = r := by
        rw [hr, List.drop_left]
      rw [hdrop]
      have heq : v ++ r = (x :: a' ++ v) ++ b := by
        rw [← hr]; simp [List.append_assoc]
      rcases List.append_eq_append_iff.mp heq with ⟨k, hk1, hk2⟩ | ⟨k, hk1, hk2⟩
      · -- x :: a' ++ v = v ++ k would force r = k ++ b
        exact ⟨k, by rw [hk2]⟩
      · -- v = (x :: a' ++ v) ++ k : impossible by length
        have := congrArg List.length hk1
        simp at this
        omega
    · rw [Bool.not_eq_true] at hs
      rw [hs]
      simpa using ih

theorem embedsInOrder_prepend {b : List Char} {vs : List String}
    (c : List Char) (h : EmbedsInOrder b vs) : EmbedsInOrder (c ++ b) vs := by
  cases vs with
  | nil => trivial
  | cons v vs' =>
    obtain ⟨a, b', hb, h'⟩ := h
    exact ⟨c ++ a, b', by rw [hb]; simp [List.append_assoc], h'⟩

theorem embeds_valsInOrder {hay : List Char} {vs : List String}
    (h : EmbedsInOrder hay vs) : valsInOrder hay vs = true := by
  induction vs generalizing hay with
  | nil => rfl
  | cons v vs' ih =>
    obtain ⟨a, b, hb, h'⟩ := h
    obtain ⟨c, hc⟩ := dropAfterFirst_append v.data b a
    rw [hb]
    simp only [valsInOrder, hc]
    exact ih (embedsInOrder_prepend c h')

/-- Helper to peel one value off an `EmbedsInOrder` goal, giving the text
before it and the text after it explicitly as strings. -/
theorem EmbedsInOrder.step {hay : List Char} {v : String} {vs : List String}
    (a rest : String) (heq : hay = a.data ++ v.data ++ rest.data)
    (h : EmbedsInOrder rest.data vs) : EmbedsInOrder hay (v :: vs) :=
  ⟨a.data, rest.data, heq, h⟩

set_option maxRecDepth 16384 in
/-- The `get_site` rendering presents the field values as disjoint
substrings in the order identifier, display name, short name, workspace
id, formatted creation date, formatted last-published date, preview
URL. -/
theorem formatSite_fields (s : Site) :
    EmbedsInOrder (formatSite s).data
      [s.id, s.displayName, s.shortName, s.workspaceId, formatDate s.createdOn, formatDate s.lastPublished, previewUrlOrNA s.previewUrl] := by
  refine EmbedsInOrder.step "• Site Details:\n            ID: "
    ("\n            Display Name: "
        ++ s.displayName
        ++ "\n            Short Name: "
        ++ s.shortName
        ++ "\n          \n          - Workspace Information:\n            Workspace ID: "
        ++ s.workspaceId
        ++ "\n          \n          - Dates:\n            Created On: "
        ++ formatDate s.createdOn
        ++ "\n            Last Published: "
        ++ formatDate s.lastPublished
        ++ "\n          \n          - URLs:\n            Preview URL: "
        ++ previewUrlOrNA s.previewUrl) ?_ ?_
  · simp [formatSite, String.data_append, List.append_assoc]
  refine EmbedsInOrder.step "\n            Display Name: "
    ("\n            Short Name: "
        ++ s.shortName
        ++ "\n          \n          - Workspace Information:\n            Workspace ID: "
        ++ s.workspaceId
        ++ "\n          \n          - Dates:\n            Created On: "
        ++ formatDate s.createdOn
        ++ "\n            Last Published: "
        ++ formatDate s.lastPublished
        ++ "\n          \n          - URLs:\n            Preview URL: "
        ++ previewUrlOrNA s.previewUrl) ?_ ?_
  · simp [String.data_append, List.append_assoc]
  refine EmbedsInOrder.step "\n            Short Name: "
    ("\n          \n          - Workspace Information:\n            Workspace ID: "
        ++ s.workspaceId
        ++ "\n          \n          - Dates:\n            Created On: "
        ++ formatDate s.createdOn
        ++ "\n            Last Published: "
        ++ formatDate s.lastPublished
        ++ "\n          \n          - URLs:\n            Preview URL: "
        ++ previewUrlOrNA s.previewUrl) ?_ ?_
  · simp [String.data_append, List.append_assoc]
  refine EmbedsInOrder.step "\n          \n          - Workspace Information:\n            Workspace ID: "
    ("\n          \n          - Dates:\n            Created On: "
        ++ formatDate s.createdOn
        ++ "\n            Last Published: "
        ++ formatDate s.lastPublished
        ++ "\n          \n          - URLs:\n            Preview URL: "
        ++ previewUrlOrNA s.previewUrl) ?_ ?_
  · simp [String.data_append, List.append_assoc]
  refine EmbedsInOrder.step "\n          \n          - Dates:\n            Created On: "
    ("\n            Last Published: "
        ++ formatDate s.lastPublished
        ++ "\n          \n          - URLs:\n            Preview URL: "
        ++ previewUrlOrNA s.previewUrl) ?_ ?_
  · simp [String.data_append, List.append_assoc]
  refine EmbedsInOrder.step "\n            Last Published: "
    ("\n          \n          - URLs:\n            Preview URL: "
        ++ previewUrlOrNA s.previewUrl) ?_ ?_
  · simp [String.data_append, List.append_assoc]
  refine EmbedsInOrder.step "\n          \n          - URLs:\n            Preview URL: "
    "" ?_ ?_
  · simp [String.data_append, List.append_assoc]
  trivial

set_option maxRecDepth 16384 in
/-- The `get_sites` per-record rendering presents the field values as
disjoint substrings in the order display name, identifier, workspace id,
formatted creation date, formatted last-published date, preview URL; the
short name is not rendered at all. -/
theorem formatSiteListItem_fields (s : Site) :
    EmbedsInOrder (formatSiteListItem s).data
      [s.displayName, s.id, s.workspaceId, formatDate s.createdOn, formatDate s.lastPublished, previewUrlOrNA s.previewUrl] := by
  refine EmbedsInOrder.step "\n• Site: "
    ("\n  - ID: "
        ++ s.id
        ++ "\n  - Workspace: "
        ++ s.workspaceId
        ++ "\n  - Created: "
        ++ formatDate s.createdOn
        ++ "\n  - Last Published: "
        ++ formatDate s.lastPublished
        ++ "\n  - Preview URL: "
        ++ previewUrlOrNA s.previewUrl
        ++ "\n") ?_ ?_
  · simp [formatSiteListItem, String.data_append, List.append_assoc]
  refine EmbedsInOrder.step "\n  - ID: "
    ("\n  - Workspace: "
        ++ s.workspaceId
        ++ "\n  - Created: "
        ++ formatDate s.createdOn
        ++ "\n  - Last Published: "
        ++ formatDate s.lastPublished
        ++ "\n  - Preview URL: "
        ++ previewUrlOrNA s.previewUrl
        ++ "\n") ?_ ?_
  · simp [String.data_append, List.append_assoc]
  refine EmbedsInOrder.step "\n  - Workspace: "
    ("\n  - Created: "
        ++ formatDate s.createdOn
        ++ "\n  - Last Published: "
        ++ formatDate s.lastPublished
        ++ "\n  - Preview URL: "
        ++ previewUrlOrNA s.previewUrl
        ++ "\n") ?_ ?_
  · simp [String.data_append, List.append_assoc]
  refine EmbedsInOrder.step "\n  - Created: "
    ("\n  - Last Published: "
        ++ formatDate s.lastPublished
        ++ "\n  - Preview URL: "
        ++ previewUrlOrNA s.previewUrl
        ++ "\n") ?_ ?_
  · simp [String.data_append, List.append_assoc]
  refine EmbedsInOrder.step "\n  - Last Published: "
    ("\n  - Preview URL: "
        ++ previewUrlOrNA s.previewUrl
        ++ "\n") ?_ ?_
  · simp [String.data_append, List.append_assoc]
  refine EmbedsInOrder.step "\n  - Preview URL: "
    ("\n") ?_ ?_
  · simp [String.data_append, List.append_assoc]
  trivial

/-! ## Concrete worlds and inputs used by witnesses and counterexamples -/

/-- A sample site all of whose optional fields are absent. -/
def sampleSite : Site :=
  { id := "i7", displayName := "d7", shortName := "s7", workspaceId := "w7",
    createdOn := none, lastPublished := none, previewUrl := none }

/-- A second sample site, with all optional fields present. -/
def sampleSite2 : Site :=
  { id := "i8", displayName := "d8", shortName := "s8", workspaceId := "w8",
    createdOn := some ⟨"1/2/2024"⟩, lastPublished := some ⟨"3/4/2024"⟩,
    previewUrl := some "https://p.example" }

/-- A world whose single-site fetch rejects with the provider not-found
code and whose list fetch rejects with a non-object value. -/
def wNotFound : World :=
  { getFetch := fun _ => .err (.withCode "NOT_FOUND" "Requested resource not found"),
    listFetch := .err .nonObject }

/-- A world whose remote calls reject with a plain network error. -/
def wNetErr : World :=
  { getFetch := fun _ => .err (.plainError "ECONNRESET"),
    listFetch := .err (.plainError "ECONNRESET") }

/-- A world whose list fetch resolves to an empty array and whose single
fetch resolves to a falsy value. -/
def wEmpty : World :=
  { getFetch := fun _ => .ok none, listFetch := .ok (.arr []) }

/-- A world whose list fetch resolves to two records. -/
def wTwoSites : World :=
  { getFetch := fun _ => .ok (some sampleSite),
    listFetch := .ok (.arr [sampleSite, sampleSite2]) }

/-! ## Claim theorems -/

/-- C1: when the remote fetch of `get_site` rejects with an error carrying
the provider-specific `NOT_FOUND` code, the handler returns a successful
result (no error raised) whose single content item is text containing the
requested `siteId`. -/
theorem get_site_notFound_is_success (w : World) (args : RawArgs)
    (siteId msg : String)
    (hparse : parseGetSite args = .ok siteId)
    (hfetch : w.getFetch siteId = .err (.withCode "NOT_FOUND" msg)) :
    (get_site w args).outcome =
      .success ⟨[⟨"text", "Site with ID " ++ siteId ++ " not found."⟩]⟩
    ∧ ∃ a b, ("Site with ID " ++ siteId ++ " not found.").data
        = a ++ siteId.data ++ b := by
  constructor
  · simp [get_site, hparse, hfetch, getSiteCatch, isNotFoundError,
      isWebflowApiError, errorCode]
  · exact ⟨"Site with ID ".data, " not found.".data,
      by simp [String.data_append, List.append_assoc]⟩

theorem get_site_notFound_is_success_witness :
    ((get_site wNotFound ⟨some (.str "abc123")⟩).outcome =
      .success ⟨[⟨"text", "Site with ID " ++ "abc123" ++ " not found."⟩]⟩)
    ∧ ∃ a b, ("Site with ID " ++ "abc123" ++ " not found.").data
        = a ++ "abc123".data ++ b :=
  get_site_notFound_is_success wNotFound ⟨some (.str "abc123")⟩ "abc123"
    "Requested resource not found" rfl rfl

/-- C3: any remote-call failure that is not the not-found condition is
caught by the owning handler and replaced by that handler's fixed generic
error, independent of the caught error's content; the dispatch layer
re-raises the handler's outcome verbatim. -/
theorem handlers_sanitize_failures (w : World) (args : RawArgs)
    (siteId : String) (e eL : JsError)
    (hparse : parseGetSite args = .ok siteId)
    (hfetch : w.getFetch siteId = .err e)
    (hnf : isNotFoundError e = false)
    (hlist : w.listFetch = .err eL) :
    (get_site w args).outcome = .failure (.plainError "Failed to fetch site details")
    ∧ (get_sites w).outcome = .failure (.plainError "Failed to fetch sites list")
    ∧ (callTool w "get_site" args).outcome = (get_site w args).outcome
    ∧ (callTool w "get_sites" args).outcome = (get_sites w).outcome := by
  refine ⟨?_, ?_, ?_, ?_⟩
  · simp [get_site, hparse, hfetch, getSiteCatch, hnf]
  · simp [get_sites, hlist]
  · simp [callTool]
  · simp [callTool]

theorem handlers_sanitize_failures_witness :
    ((get_site wNetErr ⟨some (.str "abc123")⟩).outcome =
        .failure (.plainError "Failed to fetch site details"))
    ∧ (get_sites wNetErr).outcome = .failure (.plainError "Failed to fetch sites list")
    ∧ (callTool wNetErr "get_site" ⟨some (.str "abc123")⟩).outcome =
        (get_site wNetErr ⟨some (.str "abc123")⟩).outcome
    ∧ (callTool wNetErr "get_sites" ⟨some (.str "abc123")⟩).outcome =
        (get_sites wNetErr).outcome :=
  handlers_sanitize_failures wNetErr ⟨some (.str "abc123")⟩ "abc123"
    (.plainError "ECONNRESET") (.plainError "ECONNRESET") rfl rfl rfl rfl

/-- C4: a `get_site` invocation whose arguments lack the `siteId` field or
carry an empty-string `siteId` fails with a validation error that reaches
the caller through the dispatch layer, and no remote fetch is issued. -/
theorem get_site_validation_rejects (w : World) (args : RawArgs)
    (h : args.siteId = none ∨ args.siteId = some (.str "")) :
    (∃ m, (get_site w args).outcome = .failure (.zodError m)
        ∧ (callTool w "get_site" args).outcome = .failure (.zodError m))
    ∧ (get_site w args).remoteCalled = false := by
  rcases h with h | h
  · refine ⟨⟨"Required", ?_, ?_⟩, ?_⟩ <;>
      simp [get_site, parseGetSite, h, callTool]
  · refine ⟨⟨"Site ID is required", ?_, ?_⟩, ?_⟩ <;>
      simp [get_site, parseGetSite, h, callTool]

theorem get_site_validation_rejects_witness :
    (∃ m, (get_site wTwoSites ⟨none⟩).outcome = .failure (.zodError m)
        ∧ (callTool wTwoSites "get_site" ⟨none⟩).outcome = .failure (.zodError m))
    ∧ (get_site wTwoSites ⟨none⟩).remoteCalled = false :=
  get_site_validation_rejects wTwoSites ⟨none⟩ (Or.inl rfl)

/-- C6: an empty upstream list, or a non-array `sites` field, makes
`get_sites` return a successful result with exactly one content item
carrying the fixed no-sites message. -/
theorem get_sites_empty_fixed_message (w : World)
    (h : w.listFetch = .ok (.arr []) ∨ w.listFetch = .ok .notArray) :
    (get_sites w).outcome =
      .success ⟨[⟨"text", "No sites found for this account."⟩]⟩ := by
  rcases h with h | h <;> simp [get_sites, h]

theorem get_sites_empty_fixed_message_witness :
    (get_sites wEmpty).outcome =
      .success ⟨[⟨"text", "No sites found for this account."⟩]⟩ :=
  get_sites_empty_fixed_message wEmpty (Or.inl rfl)

/-- C7 (counterexample): at the concrete tool name `"toString"` — which is
not in the handler table — the dispatch does not raise the unknown-tool
error: the bracket lookup finds the truthy inherited
`Object.prototype.toString` and invokes it in place of a handler, and the
call returns the string `"[object Undefined]"` as the result. -/
theorem dispatch_toString_not_unknown_tool :
    "toString" ∉ ["get_site", "get_sites"]
    ∧ (callTool wTwoSites "toString" ⟨none⟩).outcome ≠
        .failure (.plainError ("Unknown tool: " ++ "toString"))
    ∧ (callTool wTwoSites "toString" ⟨none⟩).outcome =
        .rawString "[object Undefined]"
    ∧ (callTool wTwoSites "toString" ⟨none⟩).inheritedInvoked = true := by
  refine ⟨by simp, ?_, ?_, ?_⟩ <;>
    simp [callTool, objectPrototypeMembers, invokeProtoMember]

/-- C7 (amended): a call-tool request whose tool name is neither a key of
the handler table nor one of the member names a plain object inherits
from `Object.prototype` is rejected with the unknown-tool error, without
invoking any handler or inherited member and without any remote call.
(For an inherited member name the lookup is truthy, so the dispatch
invokes the inherited member instead of raising the unknown-tool
error.) -/
theorem unknown_tool_no_handler (w : World) (args : RawArgs) (toolName : String)
    (h : toolName ∉ ["get_site", "get_sites"])
    (hp : toolName ∉ objectPrototypeMembers) :
    callTool w toolName args =
      { outcome := .failure (.plainError ("Unknown tool: " ++ toolName)),
        handlerInvoked := false, inheritedInvoked := false,
        remoteCalled := false } := by
  simp only [List.mem_cons, List.not_mem_nil, or_false, not_or] at h
  simp [callTool, h.1, h.2, hp]

theorem unknown_tool_no_handler_witness :
    callTool wTwoSites "delete_site" ⟨none⟩ =
      { outcome := .failure (.plainError ("Unknown tool: " ++ "delete_site")),
        handlerInvoked := false, inheritedInvoked := false,
        remoteCalled := false } :=
  unknown_tool_no_handler wTwoSites ⟨none⟩ "delete_site" (by simp)
    (by simp [objectPrototypeMembers])

/-- C8: the list-tools handler always returns exactly two descriptors,
named `get_site` and `get_sites` in that order, identically on every call
regardless of prior call history. -/
theorem list_tools_static (h : List (String × RawArgs)) :
    (listToolsHandler h).length = 2
    ∧ (listToolsHandler h).map ToolDefinition.name = ["get_site", "get_sites"]
    ∧ listToolsHandler h = listToolsHandler [] :=
  ⟨rfl, rfl, rfl⟩

/-- C9: when the remote fetch resolves but yields a falsy site record, the
internally thrown `Error("Site not found")` carries no provider error
code, fails the not-found detection, and so the handler raises the
generic failure instead of returning the successful not-found result. -/
theorem get_site_falsy_record_generic_error (w : World) (args : RawArgs)
    (siteId : String)
    (hparse : parseGetSite args = .ok siteId)
    (hfetch : w.getFetch siteId = .ok none) :
    (get_site w args).outcome = .failure (.plainError "Failed to fetch site details")
    ∧ isNotFoundError (.plainError "Site not found") = false := by
  constructor
  · simp [get_site, hparse, hfetch, getSiteCatch, isNotFoundError,
      isWebflowApiError, errorCode]
  · rfl

theorem get_site_falsy_record_generic_error_witness :
    ((get_site wEmpty ⟨some (.str "abc123")⟩).outcome =
        .failure (.plainError "Failed to fetch site details"))
    ∧ isNotFoundError (.plainError "Site not found") = false :=
  get_site_falsy_record_generic_error wEmpty ⟨some (.str "abc123")⟩ "abc123" rfl rfl

/-- C10: a validation error raised by argument parsing happens before the
handler's try/catch, so it propagates to and through the dispatch layer
unchanged, still carrying the validator's message, and is never replaced
by the generic fetch-failure message. -/
theorem get_site_validation_error_propagates (w : World) (args : RawArgs)
    (e : JsError) (hparse : parseGetSite args = .error e) :
    (get_site w args).outcome = .failure e
    ∧ (get_site w args).remoteCalled = false
    ∧ (callTool w "get_site" args).outcome = .failure e
    ∧ ∃ m, e = .zodError m := by
  refine ⟨?_, ?_, ?_, ?_⟩
  · simp [get_site, hparse]
  · simp [get_site, hparse]
  · simp [callTool, get_site, hparse]
  · cases hv : args.siteId with
    | none =>
      simp [parseGetSite, hv] at hparse
      exact ⟨"Required", hparse.symm⟩
    | some v =>
      cases v with
      | str s =>
        by_cases hlen : s.length ≥ 1
        · simp [parseGetSite, hv, hlen] at hparse
        · simp [parseGetSite, hv, hlen] at hparse
          exact ⟨"Site ID is required", hparse.symm⟩
      | nonString =>
        simp [parseGetSite, hv] at hparse
        exact ⟨"Expected string, received other", hparse.symm⟩

theorem get_site_validation_error_propagates_witness :
    ((get_site wTwoSites ⟨some .nonString⟩).outcome =
        .failure (.zodError "Expected string, received other"))
    ∧ (get_site wTwoSites ⟨some .nonString⟩).remoteCalled = false
    ∧ (callTool wTwoSites "get_site" ⟨some .nonString⟩).outcome =
        .failure (.zodError "Expected string, received other")
    ∧ ∃ m, JsError.zodError "Expected string, received other" = .zodError m :=
  get_site_validation_error_propagates wTwoSites ⟨some .nonString⟩
    (.zodError "Expected string, received other") rfl

/-- Prefixing a `joinWith`-joined block list with any preamble embeds every
block as a disjoint substring, in the order joined. -/
theorem joinWith_embeds (sep : String) : ∀ (pre : String) (blocks : List String),
    EmbedsInOrder (pre ++ joinWith sep blocks).data blocks
  | _, [] => by trivial
  | pre, [x] => ⟨pre.data, [], by simp [joinWith, String.data_append], by trivial⟩
  | pre, x :: y :: rest =>
    ⟨pre.data, (sep ++ joinWith sep (y :: rest)).data,
      by simp [joinWith, String.data_append, List.append_assoc],
      joinWith_embeds sep sep (y :: rest)⟩

/-- C5: on a non-empty upstream list, `get_sites` succeeds with exactly
one content item; its text is the count header followed by the per-record
blocks joined in the order received, and it embeds the rendered count and
then every block as disjoint substrings in that order. -/
theorem get_sites_nonempty_lists_all (w : World) (sites : List Site)
    (hne : sites ≠ [])
    (hfetch : w.listFetch = .ok (.arr sites)) :
    (get_sites w).outcome = .success ⟨[⟨"text",
        "Found " ++ toString sites.length ++ " sites:\n"
          ++ joinWith "\n" (sites.map formatSiteListItem)⟩]⟩
    ∧ EmbedsInOrder ("Found " ++ toString sites.length ++ " sites:\n"
          ++ joinWith "\n" (sites.map formatSiteListItem)).data
        (toString sites.length :: sites.map formatSiteListItem) := by
  constructor
  · simp [get_sites, hfetch, hne]
  · refine EmbedsInOrder.step "Found "
      (" sites:\n" ++ joinWith "\n" (sites.map formatSiteListItem)) ?_ ?_
    · simp [String.data_append, List.append_assoc]
    · exact joinWith_embeds "\n" " sites:\n" (sites.map formatSiteListItem)

theorem get_sites_nonempty_lists_all_witness :
    (get_sites wTwoSites).outcome = .success ⟨[⟨"text",
        "Found " ++ toString ([sampleSite, sampleSite2].length) ++ " sites:\n"
          ++ joinWith "\n" ([sampleSite, sampleSite2].map formatSiteListItem)⟩]⟩ :=
  (get_sites_nonempty_lists_all wTwoSites [sampleSite, sampleSite2]
    (by simp) rfl).1

/-- C2 (counterexample): the per-record rendering used by `get_sites`, at
the concrete record `sampleSite`, does not list the field values in the
claimed fixed order identifier, display name, short name, workspace id,
creation date, last-published date, preview URL: the short name is not
rendered at all, and the display name precedes the identifier. -/
theorem formatSiteListItem_breaks_claimed_order :
    ¬ EmbedsInOrder (formatSiteListItem sampleSite).data
      ["i7", "d7", "s7", "w7", "N/A", "N/A", "N/A"] :=
  fun h => absurd (embeds_valsInOrder h) (by decide)

/-- C2 (amended): the `get_site` rendering lists the field values in the
fixed order identifier, display name, short name, workspace id, creation
date, last-published date, preview URL; the per-record rendering used by
`get_sites` instead lists display name, identifier, workspace id,
creation date, last-published date, preview URL and omits the short name;
in both, a missing date or preview URL is rendered as `"N/A"`. -/
theorem renderings_field_order (s : Site) :
    EmbedsInOrder (formatSite s).data
      [s.id, s.displayName, s.shortName, s.workspaceId, formatDate s.createdOn,
       formatDate s.lastPublished, previewUrlOrNA s.previewUrl]
    ∧ EmbedsInOrder (formatSiteListItem s).data
      [s.displayName, s.id, s.workspaceId, formatDate s.createdOn,
       formatDate s.lastPublished, previewUrlOrNA s.previewUrl]
    ∧ formatDate none = "N/A" ∧ previewUrlOrNA none = "N/A" :=
  ⟨formatSite_fields s, formatSiteListItem_fields s, rfl, rfl⟩
